import Mathlib

/-!
Verification development for the IPL 2025 Statistics Analyzer
(`ipl_analyzer.py`).  The Python source is shallowly embedded: the four
pandas data frames become Lean lists of records, pandas operations
(`nlargest`, `idxmax` + `loc`, boolean-mask row lookup, `head`) become
executable Lean functions with the semantics documented by pandas, and
printed / written output becomes explicit lists of events or text chunks.
Python exceptions (`AttributeError` on an attribute that was never
assigned, `ValueError` from `idxmax` on an empty frame) are modelled with
`Except`.
-/

namespace IPL

/-! ### Python string helpers (`str.lower`, `str.upper`, `str.capitalize`)

The analyzer only ever feeds ASCII category strings to these methods, so
they are embedded by their ASCII semantics: letters are mapped between the
ranges 65..90 and 97..122, every other character is left unchanged. -/

/-- A character with code point below 128, built directly so that `toNat`
computes definitionally. -/
def asciiChar (n : Nat) (h : n < 128) : Char :=
  ⟨⟨⟨⟨n, by omega⟩⟩⟩, Or.inl (show n < 55296 by omega)⟩

theorem asciiChar_toNat (n : Nat) (h : n < 128) : (asciiChar n h).toNat = n := rfl

theorem char_eq_of_toNat {a b : Char} (h : a.toNat = b.toNat) : a = b := by
  obtain ⟨⟨⟨⟨na, ha⟩⟩⟩, va⟩ := a
  obtain ⟨⟨⟨⟨nb, hb⟩⟩⟩, vb⟩ := b
  simp only [Char.toNat, UInt32.toNat, BitVec.toNat] at h
  subst h
  rfl

/-- Embeds Python `str.lower` on a single character (ASCII range). -/
def pyLowerChar (c : Char) : Char :=
  if h : 65 ≤ c.toNat ∧ c.toNat ≤ 90 then asciiChar (c.toNat + 32) (by omega) else c

/-- Embeds Python `str.upper` on a single character (ASCII range). -/
def pyUpperChar (c : Char) : Char :=
  if h : 97 ≤ c.toNat ∧ c.toNat ≤ 122 then asciiChar (c.toNat - 32) (by omega) else c

theorem pyLowerChar_of_upper {c : Char} (h : 65 ≤ c.toNat ∧ c.toNat ≤ 90) :
    pyLowerChar c = asciiChar (c.toNat + 32) (by omega) := dif_pos h

theorem pyLowerChar_of_not {c : Char} (h : ¬(65 ≤ c.toNat ∧ c.toNat ≤ 90)) :
    pyLowerChar c = c := dif_neg h

theorem pyUpperChar_of_lower {c : Char} (h : 97 ≤ c.toNat ∧ c.toNat ≤ 122) :
    pyUpperChar c = asciiChar (c.toNat - 32) (by omega) := dif_pos h

theorem pyUpperChar_of_not {c : Char} (h : ¬(97 ≤ c.toNat ∧ c.toNat ≤ 122)) :
    pyUpperChar c = c := dif_neg h

theorem pyLowerChar_idem (c : Char) : pyLowerChar (pyLowerChar c) = pyLowerChar c := by
  by_cases h : 65 ≤ c.toNat ∧ c.toNat ≤ 90
  · rw [pyLowerChar_of_upper h, pyLowerChar_of_not]
    rw [asciiChar_toNat]
    omega
  · rw [pyLowerChar_of_not h]
    exact pyLowerChar_of_not h

theorem pyUpperChar_pyLowerChar (c : Char) :
    pyUpperChar (pyLowerChar c) = pyUpperChar c := by
  by_cases h : 65 ≤ c.toNat ∧ c.toNat ≤ 90
  · rw [pyLowerChar_of_upper h, pyUpperChar_of_lower (by rw [asciiChar_toNat]; omega),
      pyUpperChar_of_not (by omega)]
    apply char_eq_of_toNat
    rw [asciiChar_toNat, asciiChar_toNat]
    omega
  · rw [pyLowerChar_of_not h]

/-- Embeds Python `str.lower` (ASCII semantics). -/
def pyLower (s : String) : String := String.mk (s.data.map pyLowerChar)

/-- Embeds Python `str.upper` (ASCII semantics). -/
def pyUpper (s : String) : String := String.mk (s.data.map pyUpperChar)

/-- Embeds Python `str.capitalize` (ASCII semantics): first character
uppercased, the remaining characters lowercased. -/
def pyCapitalize (s : String) : String :=
  match s.data with
  | [] => String.mk []
  | c :: rest => String.mk (pyUpperChar c :: rest.map pyLowerChar)

theorem pyLower_idem (s : String) : pyLower (pyLower s) = pyLower s := by
  obtain ⟨l⟩ := s
  simp only [pyLower, List.map_map]
  rw [show pyLowerChar ∘ pyLowerChar = pyLowerChar from funext pyLowerChar_idem]

theorem pyUpper_pyLower (s : String) : pyUpper (pyLower s) = pyUpper s := by
  obtain ⟨l⟩ := s
  simp only [pyLower, pyUpper, List.map_map]
  rw [show pyUpperChar ∘ pyLowerChar = pyUpperChar from funext pyUpperChar_pyLowerChar]

theorem pyCapitalize_pyLower (s : String) : pyCapitalize (pyLower s) = pyCapitalize s := by
  obtain ⟨l⟩ := s
  match l with
  | [] => rfl
  | c :: rest =>
    simp only [pyCapitalize, pyLower, List.map_cons, List.map_map]
    rw [pyUpperChar_pyLowerChar,
      show pyLowerChar ∘ pyLowerChar = pyLowerChar from funext pyLowerChar_idem]

/-! ### Python format-spec helpers

These embed the format specs the source uses in f-strings:
`{n:2d}` / `{n:3d}` (minimum-width right-aligned decimal), `{s:<4}` /
`{s:<20}` (left-aligned, padded on the right), `{x:.2f}` and `{x:+.3f}`
(fixed decimals; the CSV float columns are modelled as exact rationals, and
rounding is round-half-to-even as in Python float formatting). -/

/-- Embeds `{n:wd}`: decimal digits of `n`, left-padded with spaces to
width `w`. -/
def fmtNatW (w : Nat) (n : Nat) : String :=
  String.mk (List.replicate (w - (toString n).length) ' ') ++ toString n

/-- Embeds `{s:<w}`: the string `s`, right-padded with spaces to width `w`. -/
def padRightStr (w : Nat) (s : String) : String :=
  s ++ String.mk (List.replicate (w - s.length) ' ')

/-- Exactly `k` decimal digits of `n` (most significant first), for
`n < 10 ^ k`: the fractional part of a fixed-point rendering. -/
def padZeros (k : Nat) (n : Nat) : String :=
  String.mk ((List.range k).map (fun i => Char.ofNat (48 + n / 10 ^ (k - 1 - i) % 10)))

/-- Round to the nearest integer, ties to even, as Python float formatting
does. -/
def roundHalfEven (x : ℚ) : ℤ :=
  if x - ⌊x⌋ < 1 / 2 then ⌊x⌋
  else if 1 / 2 < x - ⌊x⌋ then ⌊x⌋ + 1
  else if ⌊x⌋ % 2 = 0 then ⌊x⌋ else ⌊x⌋ + 1

/-- The digits of `|x|` with exactly `k` digits after the decimal point. -/
def fmtFixed (k : Nat) (x : ℚ) : String :=
  toString ((roundHalfEven (|x| * 10 ^ k)).toNat / 10 ^ k) ++ "." ++
    padZeros k ((roundHalfEven (|x| * 10 ^ k)).toNat % 10 ^ k)

/-- Embeds `{x:.2f}`. -/
def fmtRat2 (x : ℚ) : String :=
  (if x < 0 then "-" else "") ++ fmtFixed 2 x

/-- Embeds `{x:+.3f}`. -/
def fmtRatSigned3 (x : ℚ) : String :=
  (if x < 0 then "-" else "+") ++ fmtFixed 3 x

theorem length_mk_list (l : List Char) : (String.mk l).length = l.length := rfl

theorem padZeros_length (k n : Nat) : (padZeros k n).length = k := by
  rw [padZeros, length_mk_list, List.length_map, List.length_range]

theorem fmtNatW_length (w n : Nat) :
    (fmtNatW w n).length = max w (toString n).length := by
  rw [fmtNatW, String.length_append, length_mk_list, List.length_replicate]
  omega

theorem padRightStr_spec (w : Nat) (s : String) :
    (padRightStr w s).length = max s.length w ∧
      ∃ pad, padRightStr w s = s ++ pad := by
  constructor
  · simp only [padRightStr, String.length_append, length_mk_list, List.length_replicate]
    omega
  · exact ⟨_, rfl⟩

theorem fmtRatSigned3_shape (x : ℚ) :
    ∃ ip fr, fmtRatSigned3 x = (if x < 0 then "-" else "+") ++ (ip ++ "." ++ fr) ∧
      fr.length = 3 :=
  ⟨_, _, rfl, padZeros_length 3 _⟩

/-! ### pandas `nlargest`

`DataFrame.nlargest(n, col)` with the default `keep='first'` returns the
first `n` rows when the frame is sorted descending by `col`, duplicated
key values keeping their original relative order (first occurrences are
prioritized).  It is embedded as a stable descending insertion sort by a
natural-number key followed by `take n`. -/

/-- Insert `a` in front of the first element whose key is not larger;
elements passed over have strictly larger keys. -/
def insertDesc (f : α → Nat) (a : α) : List α → List α
  | [] => [a]
  | b :: t => if f b ≤ f a then a :: b :: t else b :: insertDesc f a t

/-- Stable descending insertion sort by key `f`. -/
def sortDesc (f : α → Nat) : List α → List α
  | [] => []
  | a :: t => insertDesc f a (sortDesc f t)

/-- Embeds pandas `nlargest(n, col)` with `keep='first'`. -/
def nlargest (n : Nat) (f : α → Nat) (l : List α) : List α :=
  (sortDesc f l).take n

theorem perm_insertDesc (f : α → Nat) (a : α) (l : List α) :
    List.Perm (insertDesc f a l) (a :: l) := by
  induction l with
  | nil => exact List.Perm.refl _
  | cons b t ih =>
    rw [insertDesc]
    split
    · exact List.Perm.refl _
    · exact (ih.cons b).trans (List.Perm.swap a b t)

theorem perm_sortDesc (f : α → Nat) (l : List α) : List.Perm (sortDesc f l) l := by
  induction l with
  | nil => exact List.Perm.refl _
  | cons a t ih => exact (perm_insertDesc f a (sortDesc f t)).trans (ih.cons a)

theorem mem_insertDesc {f : α → Nat} {a x : α} {l : List α} :
    x ∈ insertDesc f a l ↔ x = a ∨ x ∈ l :=
  (perm_insertDesc f a l).mem_iff.trans (by simp)

theorem pairwise_insertDesc (f : α → Nat) (a : α) {l : List α}
    (h : l.Pairwise (fun x y => f y ≤ f x)) :
    (insertDesc f a l).Pairwise (fun x y => f y ≤ f x) := by
  induction l with
  | nil => simp [insertDesc]
  | cons b t ih =>
    rw [insertDesc]
    rw [List.pairwise_cons] at h
    split
    · rename_i hba
      rw [List.pairwise_cons]
      refine ⟨?_, List.pairwise_cons.mpr h⟩
      intro x hx
      rcases List.mem_cons.mp hx with rfl | hx
      · exact hba
      · exact le_trans (h.1 x hx) hba
    · rename_i hba
      rw [List.pairwise_cons]
      refine ⟨?_, ih h.2⟩
      intro x hx
      rcases mem_insertDesc.mp hx with rfl | hx
      · omega
      · exact h.1 x hx

theorem pairwise_sortDesc (f : α → Nat) (l : List α) :
    (sortDesc f l).Pairwise (fun x y => f y ≤ f x) := by
  induction l with
  | nil => simp [sortDesc]
  | cons a t ih => exact pairwise_insertDesc f a ih

theorem filter_insertDesc (f : α → Nat) (a : α) (l : List α) (v : Nat) :
    (insertDesc f a l).filter (fun x => f x == v) =
      if f a = v then a :: l.filter (fun x => f x == v)
      else l.filter (fun x => f x == v) := by
  induction l with
  | nil =>
    by_cases hav : f a = v <;> simp [insertDesc, List.filter_cons, hav]
  | cons b t ih =>
    rw [insertDesc]
    split
    · by_cases hav : f a = v <;> simp [List.filter_cons, hav]
    · rename_i hba
      by_cases hav : f a = v
      · have hbv : ¬ f b = v := by omega
        simp [List.filter_cons, hav, hbv, ih]
      · by_cases hbv : f b = v <;> simp [List.filter_cons, hav, hbv, ih]

/-- Stability of the descending sort: rows with any fixed key value keep
their original relative order. -/
theorem filter_sortDesc (f : α → Nat) (l : List α) (v : Nat) :
    (sortDesc f l).filter (fun x => f x == v) = l.filter (fun x => f x == v) := by
  induction l with
  | nil => rfl
  | cons a t ih =>
    rw [sortDesc, filter_insertDesc, List.filter_cons, ih]
    by_cases hav : f a = v <;> simp [hav]

theorem length_sortDesc (f : α → Nat) (l : List α) :
    (sortDesc f l).length = l.length :=
  (perm_sortDesc f l).length_eq

theorem length_nlargest (n : Nat) (f : α → Nat) (l : List α) :
    (nlargest n f l).length = min n l.length := by
  rw [nlargest, List.length_take, length_sortDesc]

/-! ### pandas `idxmax` composed with `loc`

`df.loc[df[col].idxmax()]` returns the row holding the maximum of `col`;
on ties `idxmax` returns the first occurrence, and it raises `ValueError`
on an empty frame (modelled by `none`). -/

/-- Left-to-right scan keeping the current maximum, replacing it only on a
strictly larger key: the first occurrence of the maximum wins. -/
def firstMaxFrom (f : α → Nat) (a : α) : List α → α
  | [] => a
  | b :: t => if f a < f b then firstMaxFrom f b t else firstMaxFrom f a t

/-- The first row attaining the maximum key, `none` on the empty list. -/
def firstMaxRow (f : α → Nat) : List α → Option α
  | [] => none
  | a :: t => some (firstMaxFrom f a t)

theorem firstMaxFrom_spec (f : α → Nat) (t : List α) : ∀ a,
    (∃ l1 l2, a :: t = l1 ++ firstMaxFrom f a t :: l2 ∧
        ∀ y ∈ l1, f y < f (firstMaxFrom f a t)) ∧
      ∀ y ∈ a :: t, f y ≤ f (firstMaxFrom f a t) := by
  induction t with
  | nil =>
    intro a
    exact ⟨⟨[], [], rfl, by simp⟩, by simp [firstMaxFrom]⟩
  | cons b t ih =>
    intro a
    rw [firstMaxFrom]
    by_cases hab : f a < f b
    · rw [if_pos hab]
      obtain ⟨⟨l1, l2, hsplit, hstrict⟩, hmax⟩ := ih b
      have hbr : f b ≤ f (firstMaxFrom f b t) := hmax b (List.mem_cons_self b t)
      refine ⟨⟨a :: l1, l2, by rw [List.cons_append, ← hsplit], ?_⟩, ?_⟩
      · intro y hy
        rcases List.mem_cons.mp hy with rfl | hy
        · omega
        · exact hstrict y hy
      · intro y hy
        rcases List.mem_cons.mp hy with rfl | hy
        · omega
        · exact hmax y hy
    · rw [if_neg hab]
      obtain ⟨⟨l1, l2, hsplit, hstrict⟩, hmax⟩ := ih a
      have hallb : ∀ y ∈ a :: b :: t, f y ≤ f (firstMaxFrom f a t) := by
        intro y hy
        rcases List.mem_cons.mp hy with rfl | hy
        · exact hmax y (List.mem_cons_self y t)
        · rcases List.mem_cons.mp hy with rfl | hy
          · have ha := hmax a (List.mem_cons_self a t)
            omega
          · exact hmax y (List.mem_cons_of_mem a hy)
      cases l1 with
      | nil =>
        have ha : a = firstMaxFrom f a t := by
          simpa using congrArg (fun l => l.head?) hsplit
        refine ⟨⟨[], b :: t, ?_, by simp⟩, hallb⟩
        rw [← ha]
        rfl
      | cons x l1t =>
        have hx : a = x := by
          simpa using congrArg (fun l => l.head?) hsplit
        subst hx
        have htail : t = l1t ++ firstMaxFrom f a t :: l2 := by
          simpa using congrArg (fun l => l.tail) hsplit
        refine ⟨⟨a :: b :: l1t, l2,
          by rw [List.cons_append, List.cons_append, ← htail], ?_⟩, hallb⟩
        intro y hy
        have hafm : f a < f (firstMaxFrom f a t) :=
          hstrict a (List.mem_cons_self a l1t)
        rcases List.mem_cons.mp hy with rfl | hy
        · exact hafm
        · rcases List.mem_cons.mp hy with rfl | hy
          · omega
          · exact hstrict y (List.mem_cons_of_mem a hy)

theorem firstMaxRow_cons (f : α → Nat) (a : α) (t : List α) :
    firstMaxRow f (a :: t) = some (firstMaxFrom f a t) := rfl

theorem firstMaxRow_spec {f : α → Nat} {l : List α} {r : α}
    (h : firstMaxRow f l = some r) :
    (∃ l1 l2, l = l1 ++ r :: l2 ∧ ∀ y ∈ l1, f y < f r) ∧ ∀ y ∈ l, f y ≤ f r := by
  cases l with
  | nil => cases h
  | cons a t =>
    rw [firstMaxRow_cons] at h
    obtain rfl := Option.some.inj h
    exact firstMaxFrom_spec f t a

/-! ### Data model

One record type per CSV table (section 3 of the spec / the four
`pd.read_csv` calls in `load_data`).  Integer columns are modelled as
`Nat` (the spec gives them the domain `int ≥ 0`), float columns as exact
rationals. -/

structure BattingRow where
  player : String
  team : String
  runs : Nat
  average : ℚ
  strike_rate : ℚ
  fours : Nat
  sixes : Nat
deriving DecidableEq, Repr

structure BowlingRow where
  player : String
  team : String
  wickets : Nat
  economy : ℚ
  average : ℚ
  strike_rate : ℚ
deriving DecidableEq, Repr

structure FieldingRow where
  player : String
  team : String
  catches : Nat
  matches_ : Nat
deriving DecidableEq, Repr

structure TeamRow where
  position : Nat
  team : String
  points : Nat
  nrr : ℚ
  total_runs : Nat
  won : Nat
  lost : Nat
  highest_total : Nat
deriving DecidableEq, Repr

/-- The rows `top_performers` displays for the batting category: the
column subset `['Player', 'Team', 'Runs', 'Average', 'Strike_Rate']`. -/
structure BattingShown where
  player : String
  team : String
  runs : Nat
  average : ℚ
  strike_rate : ℚ
deriving DecidableEq, Repr

/-- Column subset `['Player', 'Team', 'Wickets', 'Economy', 'Average']`. -/
structure BowlingShown where
  player : String
  team : String
  wickets : Nat
  economy : ℚ
  average : ℚ
deriving DecidableEq, Repr

/-- Column subset `['Player', 'Team', 'Catches', 'Matches']`. -/
structure FieldingShown where
  player : String
  team : String
  catches : Nat
  matches_ : Nat
deriving DecidableEq, Repr

def projBatting (r : BattingRow) : BattingShown :=
  ⟨r.player, r.team, r.runs, r.average, r.strike_rate⟩

def projBowling (r : BowlingRow) : BowlingShown :=
  ⟨r.player, r.team, r.wickets, r.economy, r.average⟩

def projFielding (r : FieldingRow) : FieldingShown :=
  ⟨r.player, r.team, r.catches, r.matches_⟩

/-- The table printed by one `top_performers` call. -/
inductive TPRows where
  | batting (rows : List BattingShown)
  | bowling (rows : List BowlingShown)
  | fielding (rows : List FieldingShown)
deriving DecidableEq, Repr

/-- The two-player comparison data `compare_players` renders as a bar
chart on success: the chart title, the fixed metric list of the category,
and for each player the name, the team label and the metric values of the
first matching row. -/
structure Comparison where
  title : String
  metrics : List String
  name1 : String
  team1 : String
  values1 : List ℚ
  name2 : String
  team2 : String
  values2 : List ℚ
deriving DecidableEq, Repr

/-- Observable output of an operation: ordinary printed text, a printed
error diagnostic, a printed table, or a rendered chart. -/
inductive PrintEvent where
  | text (s : String)
  | errorMsg (s : String)
  | table (t : TPRows)
  | chart (c : Comparison)
deriving DecidableEq, Repr

def PrintEvent.isErr : PrintEvent → Bool
  | .errorMsg _ => true
  | _ => false

/-- Python exceptions the embedded operations can raise:
`AttributeError` when a `*_df` attribute was never assigned, and
`ValueError` from `idxmax` on an empty frame. -/
inductive PyError where
  | attributeError
  | valueError
deriving DecidableEq, Repr

/-- The analyzer object: each `*_df` attribute is `none` when the
corresponding `pd.read_csv` assignment never ran. -/
structure AnalyzerState where
  batting_df : Option (List BattingRow)
  bowling_df : Option (List BowlingRow)
  fielding_df : Option (List FieldingRow)
  team_df : Option (List TeamRow)
deriving Repr

/-- A fully loaded analyzer. -/
def mkState (bt : List BattingRow) (bw : List BowlingRow)
    (fd : List FieldingRow) (tm : List TeamRow) : AnalyzerState :=
  ⟨some bt, some bw, some fd, some tm⟩

/-- Reading a `*_df` attribute: `AttributeError` when it was never set. -/
def getAttr (o : Option α) : Except PyError α :=
  match o with
  | none => .error .attributeError
  | some x => .ok x

/-- Lifting an `idxmax` result: `ValueError` on an empty frame. -/
def getIdx (o : Option α) : Except PyError α :=
  match o with
  | none => .error .valueError
  | some x => .ok x

/-! ### `load_data` (lines 35-45)

The four sources are read in order inside one `try`; a missing file
raises `FileNotFoundError`, which the `except` turns into two printed
lines, leaving the failing and all later attributes unset. -/

/-- The external CSV files; `none` models a missing file. -/
structure FileSystem where
  batting_csv : Option (List BattingRow)
  bowling_csv : Option (List BowlingRow)
  fielding_csv : Option (List FieldingRow)
  team_csv : Option (List TeamRow)

def loadFailEvents (filename : String) : List PrintEvent :=
  [.errorMsg ("❌ Error loading data: [Errno 2] No such file or directory: \x27" ++
      filename ++ "\x27"),
   .text "Please ensure all CSV files are in the current directory"]

def load_data (fs : FileSystem) : AnalyzerState × List PrintEvent :=
  match fs.batting_csv with
  | none => (⟨none, none, none, none⟩, loadFailEvents "ipl_2025_batting_stats.csv")
  | some bt =>
    match fs.bowling_csv with
    | none => (⟨some bt, none, none, none⟩, loadFailEvents "ipl_2025_bowling_stats.csv")
    | some bw =>
      match fs.fielding_csv with
      | none =>
        (⟨some bt, some bw, none, none⟩, loadFailEvents "ipl_2025_fielding_stats.csv")
      | some fd =>
        match fs.team_csv with
        | none =>
          (⟨some bt, some bw, some fd, none⟩, loadFailEvents "ipl_2025_team_stats.csv")
        | some tm =>
          (⟨some bt, some bw, some fd, some tm⟩,
            [.text "✅ All datasets loaded successfully!"])

/-! ### `top_performers` (lines 73-88) -/

def dash50 : String := String.mk (List.replicate 50 '-')

def tpHeader (category : String) (n : Nat) : String :=
  "\n🌟 TOP " ++ toString n ++ " " ++ pyUpper category ++ " PERFORMERS"

/-- Embeds `top_performers`: prints a header, then an `if`/`elif` chain on
`category.lower()` displays the `nlargest` slice of the matching table
(with its column subset); no branch of the chain matches an unrecognized
category, so nothing further is printed. -/
def top_performers (st : AnalyzerState) (category : String) (n : Nat) :
    Except PyError (List PrintEvent) :=
  if pyLower category = "batting" then
    match st.batting_df with
    | none => .error .attributeError
    | some df =>
      .ok [.text (tpHeader category n), .text dash50,
        .table (.batting ((nlargest n (fun r => r.runs) df).map projBatting))]
  else if pyLower category = "bowling" then
    match st.bowling_df with
    | none => .error .attributeError
    | some df =>
      .ok [.text (tpHeader category n), .text dash50,
        .table (.bowling ((nlargest n (fun r => r.wickets) df).map projBowling))]
  else if pyLower category = "fielding" then
    match st.fielding_df with
    | none => .error .attributeError
    | some df =>
      .ok [.text (tpHeader category n), .text dash50,
        .table (.fielding ((nlargest n (fun r => r.catches) df).map projFielding))]
  else .ok [.text (tpHeader category n), .text dash50]

/-! ### `display_summary` (lines 47-71) and the shared award computation
(also lines 296-298 of `generate_report`, which are textually identical) -/

/-- The award rows plus the tables they came from, computed in source
order: batting attribute, `Runs` idxmax, bowling attribute, `Wickets`
idxmax, fielding attribute, `Catches` idxmax. -/
structure AwardData where
  bt : List BattingRow
  orange_cap : BattingRow
  bw : List BowlingRow
  purple_cap : BowlingRow
  fd : List FieldingRow
  best_fielder : FieldingRow

def awardsOf (st : AnalyzerState) : Except PyError AwardData := do
  let bt ← getAttr st.batting_df
  let oc ← getIdx (firstMaxRow (fun r => r.runs) bt)
  let bw ← getAttr st.bowling_df
  let pc ← getIdx (firstMaxRow (fun r => r.wickets) bw)
  let fd ← getAttr st.fielding_df
  let bf ← getIdx (firstMaxRow (fun r => r.catches) fd)
  pure ⟨bt, oc, bw, pc, fd, bf⟩

/-- The data `display_summary` prints: the three award rows and the
`head(4)` slice of the team table. -/
structure Summary where
  orange_cap : BattingRow
  purple_cap : BowlingRow
  best_fielder : FieldingRow
  top4 : List TeamRow
deriving DecidableEq, Repr

def display_summary (st : AnalyzerState) : Except PyError Summary := do
  let a ← awardsOf st
  let tm ← getAttr st.team_df
  pure ⟨a.orange_cap, a.purple_cap, a.best_fielder, tm.take 4⟩

/-! ### `compare_players` (lines 231-278)

`df[df['Player'] == name].iloc[0]` is the first row whose `Player` field
equals the name exactly; `IndexError` (no match) is caught and printed.
An unrecognized category prints a diagnostic and returns before any
lookup. -/

def cmpTitle (category p1 p2 : String) : String :=
  pyCapitalize category ++ " Comparison: " ++ p1 ++ " vs " ++ p2

def battingVals (r : BattingRow) : List ℚ :=
  [(r.runs : ℚ), r.average, r.strike_rate, (r.fours : ℚ), (r.sixes : ℚ)]

def bowlingVals (r : BowlingRow) : List ℚ :=
  [(r.wickets : ℚ), r.economy, r.average, r.strike_rate]

def notFoundMsg : String := "One or both players not found in the dataset"

def badCategoryMsg : String :=
  "Category must be \x27batting\x27 or \x27bowling\x27"

def compare_players (st : AnalyzerState) (player1 player2 category : String) :
    Except PyError (List PrintEvent) :=
  if pyLower category = "batting" then
    match st.batting_df with
    | none => .error .attributeError
    | some df =>
      match df.find? (fun r => r.player == player1),
          df.find? (fun r => r.player == player2) with
      | some p1, some p2 =>
        .ok [.chart
          { title := cmpTitle category player1 player2,
            metrics := ["Runs", "Average", "Strike_Rate", "Fours", "Sixes"],
            name1 := player1, team1 := p1.team, values1 := battingVals p1,
            name2 := player2, team2 := p2.team, values2 := battingVals p2 }]
      | _, _ => .ok [.errorMsg notFoundMsg]
  else if pyLower category = "bowling" then
    match st.bowling_df with
    | none => .error .attributeError
    | some df =>
      match df.find? (fun r => r.player == player1),
          df.find? (fun r => r.player == player2) with
      | some p1, some p2 =>
        .ok [.chart
          { title := cmpTitle category player1 player2,
            metrics := ["Wickets", "Economy", "Average", "Strike_Rate"],
            name1 := player1, team1 := p1.team, values1 := bowlingVals p1,
            name2 := player2, team2 := p2.team, values2 := bowlingVals p2 }]
      | _, _ => .ok [.errorMsg notFoundMsg]
  else .ok [.errorMsg badCategoryMsg]

/-! ### `generate_report` (lines 280-328)

The report is modelled as the ordered list of strings passed to
`f.write`. -/

def dash20 : String := String.mk (List.replicate 20 '-')

def eq50 : String := String.mk (List.replicate 50 '=')

def teamLine (r : TeamRow) : String :=
  fmtNatW 2 r.position ++ ". " ++ padRightStr 4 r.team ++ " - " ++
    fmtNatW 2 r.points ++ " pts | W: " ++ fmtNatW 2 r.won ++ " L: " ++
    fmtNatW 2 r.lost ++ " | NRR: " ++ fmtRatSigned3 r.nrr ++ "\n"

def batLine (r : BattingRow) : String :=
  padRightStr 20 r.player ++ " (" ++ r.team ++ ") - " ++
    fmtNatW 3 r.runs ++ " runs @ " ++ fmtRat2 r.average ++ " avg, SR: " ++
    fmtRat2 r.strike_rate ++ "\n"

def bowlLine (r : BowlingRow) : String :=
  padRightStr 20 r.player ++ " (" ++ r.team ++ ") - " ++
    fmtNatW 2 r.wickets ++ " wickets @ " ++ fmtRat2 r.average ++
    " avg, Econ: " ++ fmtRat2 r.economy ++ "\n"

def reportHeaderChunks (ts : String) (a : AwardData) : List String :=
  ["IPL 2025 COMPREHENSIVE ANALYSIS REPORT\n",
   eq50 ++ "\n\n",
   "Generated on: " ++ ts ++ "\n\n",
   "TOURNAMENT SUMMARY\n",
   dash20 ++ "\n",
   "Champion: Royal Challengers Bengaluru\n",
   "Runner-up: Punjab Kings\n",
   "Total Teams: 10\n",
   "Total Matches: 74\n\n",
   "INDIVIDUAL AWARDS\n",
   dash20 ++ "\n",
   "Orange Cap: " ++ a.orange_cap.player ++ " (" ++ a.orange_cap.team ++ ") - " ++
     toString a.orange_cap.runs ++ " runs\n",
   "Purple Cap: " ++ a.purple_cap.player ++ " (" ++ a.purple_cap.team ++ ") - " ++
     toString a.purple_cap.wickets ++ " wickets\n",
   "Best Fielder: " ++ a.best_fielder.player ++ " (" ++ a.best_fielder.team ++
     ") - " ++ toString a.best_fielder.catches ++ " catches\n\n",
   "FINAL POINTS TABLE\n",
   dash20 ++ "\n"]

def reportTailChunks (a : AwardData) : List String :=
  ["\nTOP 5 BATSMEN\n", dash20 ++ "\n"] ++
    (nlargest 5 (fun r => r.runs) a.bt).map batLine ++
    ["\nTOP 5 BOWLERS\n", dash20 ++ "\n"] ++
    (nlargest 5 (fun r => r.wickets) a.bw).map bowlLine

def reportChunks (ts : String) (a : AwardData) (tm : List TeamRow) : List String :=
  reportHeaderChunks ts a ++ tm.map teamLine ++ reportTailChunks a

/-- Embeds `generate_report`: the timestamp string `ts` stands for
`datetime.now().strftime('%Y-%m-%d %H:%M:%S')`. -/
def generate_report (st : AnalyzerState) (ts : String) :
    Except PyError (List String) :=
  match awardsOf st with
  | .error e => .error e
  | .ok a =>
    match st.team_df with
    | none => .error .attributeError
    | some tm => .ok (reportChunks ts a tm)

/-! ### Concrete fixtures used by witnesses and counterexamples -/

/-- Batting row `(A, TeamX, 50)` of the spec scenario. -/
def rowA : BattingRow := ⟨"A", "TeamX", 50, 0, 0, 0, 0⟩

/-- Batting row `(B, TeamY, 80)` of the spec scenario. -/
def rowB : BattingRow := ⟨"B", "TeamY", 80, 0, 0, 0, 0⟩

/-- Batting row `(C, TeamX, 80)` of the spec scenario. -/
def rowC : BattingRow := ⟨"C", "TeamX", 80, 0, 0, 0, 0⟩

/-- The spec scenario state: batting table
`[(A,TeamX,50), (B,TeamY,80), (C,TeamX,80)]`. -/
def scenState : AnalyzerState := mkState [rowA, rowB, rowC] [] [] []

def rowW : BowlingRow := ⟨"W", "TeamX", 20, 8, 21, 15⟩
def rowG : FieldingRow := ⟨"G", "TeamY", 12, 14⟩
def teamRow1 : TeamRow := ⟨1, "BBB", 0, 0, 0, 0, 0, 0⟩
def teamRow2 : TeamRow := ⟨2, "AAA", 0, 0, 0, 0, 0, 0⟩

/-! ### Claims -/

/-- **C1.**  For every valid category string (`batting`, `bowling`,
`fielding`) and every `n ≥ 0`, `topPerformers(category, n)` displays the
rows of the corresponding table sorted descending by the primary metric
(Runs / Wickets / Catches), ties broken by original row order (each key
value keeps its original relative order), and the result size equals
`min n (table size)`; in particular on the batting table
`[(A,TeamX,50), (B,TeamY,80), (C,TeamX,80)]`, `topPerformers('batting', 2)`
returns `[B, C]`. -/
theorem C1_top_performers_sorted :
    (∀ (bt : List BattingRow) (bw : List BowlingRow) (fd : List FieldingRow)
        (tm : List TeamRow) (n : Nat),
      ∃ full : List BattingRow,
        top_performers (mkState bt bw fd tm) "batting" n =
          Except.ok [.text (tpHeader "batting" n), .text dash50,
            .table (.batting ((full.take n).map projBatting))] ∧
        List.Perm full bt ∧
        full.Pairwise (fun x y => y.runs ≤ x.runs) ∧
        (∀ v : Nat, full.filter (fun r => r.runs == v) =
          bt.filter (fun r => r.runs == v)) ∧
        (full.take n).length = min n bt.length) ∧
    (∀ (bt : List BattingRow) (bw : List BowlingRow) (fd : List FieldingRow)
        (tm : List TeamRow) (n : Nat),
      ∃ full : List BowlingRow,
        top_performers (mkState bt bw fd tm) "bowling" n =
          Except.ok [.text (tpHeader "bowling" n), .text dash50,
            .table (.bowling ((full.take n).map projBowling))] ∧
        List.Perm full bw ∧
        full.Pairwise (fun x y => y.wickets ≤ x.wickets) ∧
        (∀ v : Nat, full.filter (fun r => r.wickets == v) =
          bw.filter (fun r => r.wickets == v)) ∧
        (full.take n).length = min n bw.length) ∧
    (∀ (bt : List BattingRow) (bw : List BowlingRow) (fd : List FieldingRow)
        (tm : List TeamRow) (n : Nat),
      ∃ full : List FieldingRow,
        top_performers (mkState bt bw fd tm) "fielding" n =
          Except.ok [.text (tpHeader "fielding" n), .text dash50,
            .table (.fielding ((full.take n).map projFielding))] ∧
        List.Perm full fd ∧
        full.Pairwise (fun x y => y.catches ≤ x.catches) ∧
        (∀ v : Nat, full.filter (fun r => r.catches == v) =
          fd.filter (fun r => r.catches == v)) ∧
        (full.take n).length = min n fd.length) ∧
    top_performers scenState "batting" 2 =
      Except.ok [.text (tpHeader "batting" 2), .text dash50,
        .table (.batting [projBatting rowB, projBatting rowC])] := by
  refine ⟨?_, ?_, ?_, ?_⟩
  · intro bt bw fd tm n
    exact ⟨sortDesc (fun r => r.runs) bt, rfl, perm_sortDesc _ bt,
      pairwise_sortDesc _ bt, filter_sortDesc _ bt,
      by rw [List.length_take, length_sortDesc]⟩
  · intro bt bw fd tm n
    exact ⟨sortDesc (fun r => r.wickets) bw, rfl, perm_sortDesc _ bw,
      pairwise_sortDesc _ bw, filter_sortDesc _ bw,
      by rw [List.length_take, length_sortDesc]⟩
  · intro bt bw fd tm n
    exact ⟨sortDesc (fun r => r.catches) fd, rfl, perm_sortDesc _ fd,
      pairwise_sortDesc _ fd, filter_sortDesc _ fd,
      by rw [List.length_take, length_sortDesc]⟩
  · rfl

/-- Witness for C1: the batting clause applied to the scenario table with
`n = 2`. -/
theorem C1_witness :
    ∃ full : List BattingRow,
      top_performers (mkState [rowA, rowB, rowC] [] [] []) "batting" 2 =
        Except.ok [.text (tpHeader "batting" 2), .text dash50,
          .table (.batting ((full.take 2).map projBatting))] ∧
      List.Perm full [rowA, rowB, rowC] ∧
      full.Pairwise (fun x y => y.runs ≤ x.runs) ∧
      (∀ v : Nat, full.filter (fun r => r.runs == v) =
        [rowA, rowB, rowC].filter (fun r => r.runs == v)) ∧
      (full.take 2).length = min 2 ([rowA, rowB, rowC] : List BattingRow).length :=
  C1_top_performers_sorted.1 [rowA, rowB, rowC] [] [] [] 2

/-- **C2.**  For every non-empty batting, bowling and fielding table, the
three award rows of `summary()` (max Runs / max Wickets / max Catches)
hold the maximum value of their metric over their table, and on ties the
first such row in original row order is returned (stated as: the table
splits into a strict-smaller prefix, the award row, and a tail of
no-larger rows). -/
theorem C2_award_rows :
    ∀ (b : BattingRow) (bt : List BattingRow) (w : BowlingRow)
      (bw : List BowlingRow) (g : FieldingRow) (fd : List FieldingRow)
      (tm : List TeamRow),
    ∃ s, display_summary (mkState (b :: bt) (w :: bw) (g :: fd) tm) = Except.ok s ∧
      ((∃ l1 l2, b :: bt = l1 ++ s.orange_cap :: l2 ∧
          ∀ y ∈ l1, y.runs < s.orange_cap.runs) ∧
        ∀ y ∈ b :: bt, y.runs ≤ s.orange_cap.runs) ∧
      ((∃ l1 l2, w :: bw = l1 ++ s.purple_cap :: l2 ∧
          ∀ y ∈ l1, y.wickets < s.purple_cap.wickets) ∧
        ∀ y ∈ w :: bw, y.wickets ≤ s.purple_cap.wickets) ∧
      ((∃ l1 l2, g :: fd = l1 ++ s.best_fielder :: l2 ∧
          ∀ y ∈ l1, y.catches < s.best_fielder.catches) ∧
        ∀ y ∈ g :: fd, y.catches ≤ s.best_fielder.catches) := by
  intro b bt w bw g fd tm
  refine ⟨_, rfl, ?_, ?_, ?_⟩
  · exact firstMaxFrom_spec (fun r => r.runs) bt b
  · exact firstMaxFrom_spec (fun r => r.wickets) bw w
  · exact firstMaxFrom_spec (fun r => r.catches) fd g

/-- Witness for C2: concrete one-element extensions. -/
theorem C2_witness :
    ∃ s, display_summary (mkState [rowA, rowB] [rowW] [rowG] []) = Except.ok s ∧
      ((∃ l1 l2, [rowA, rowB] = l1 ++ s.orange_cap :: l2 ∧
          ∀ y ∈ l1, y.runs < s.orange_cap.runs) ∧
        ∀ y ∈ ([rowA, rowB] : List BattingRow), y.runs ≤ s.orange_cap.runs) ∧
      ((∃ l1 l2, [rowW] = l1 ++ s.purple_cap :: l2 ∧
          ∀ y ∈ l1, y.wickets < s.purple_cap.wickets) ∧
        ∀ y ∈ ([rowW] : List BowlingRow), y.wickets ≤ s.purple_cap.wickets) ∧
      ((∃ l1 l2, [rowG] = l1 ++ s.best_fielder :: l2 ∧
          ∀ y ∈ l1, y.catches < s.best_fielder.catches) ∧
        ∀ y ∈ ([rowG] : List FieldingRow), y.catches ≤ s.best_fielder.catches) :=
  C2_award_rows rowA [rowB] rowW [] rowG [] []

/-- Spec-side ordering for comparison: the team table sorted by
`Position` ascending (stable insertion sort), following the words of the
spec sentence "the first 4 rows of TeamRecord ordered by Position
ascending". -/
def insertAscPos (a : TeamRow) : List TeamRow → List TeamRow
  | [] => [a]
  | b :: t => if a.position ≤ b.position then a :: b :: t else b :: insertAscPos a t

/-- Spec-side: stable sort of the team table by `Position` ascending. -/
def sortAscPos : List TeamRow → List TeamRow
  | [] => []
  | a :: t => insertAscPos a (sortAscPos t)

/-- **C5, counterexample.**  On a team table stored as
`[Position 2, Position 1]`, `summary()` returns the stored prefix
`[Position 2, Position 1]`, which differs from the first 4 rows ordered
by Position ascending; so the claim "ordered by Position ascending ...
including ones whose rows are not already stored in Position order"
fails. -/
theorem C5_counterexample :
    display_summary (mkState [rowA] [rowW] [rowG] [teamRow2, teamRow1]) =
      Except.ok ⟨rowA, rowW, rowG, [teamRow2, teamRow1]⟩ ∧
    (sortAscPos [teamRow2, teamRow1]).take 4 = [teamRow1, teamRow2] ∧
    ([teamRow2, teamRow1] : List TeamRow) ≠ [teamRow1, teamRow2] := by
  refine ⟨rfl, rfl, ?_⟩
  intro h
  have := List.head_eq_of_cons_eq h
  simp [teamRow1, teamRow2] at this

/-- **C5, amended.**  `summary()` returns, alongside the three award
rows, exactly the first 4 rows of the TeamRecord table **in stored row
order** (`head(4)`; this equals Position-ascending order only when the
table is already stored sorted by Position). -/
theorem C5_summary_top4 :
    ∀ (b : BattingRow) (bt : List BattingRow) (w : BowlingRow)
      (bw : List BowlingRow) (g : FieldingRow) (fd : List FieldingRow)
      (tm : List TeamRow),
    ∃ s, display_summary (mkState (b :: bt) (w :: bw) (g :: fd) tm) = Except.ok s ∧
      s.top4 = tm.take 4 := by
  intro b bt w bw g fd tm
  exact ⟨_, rfl, rfl⟩

/-- **C3, counterexample.**  After loading with the fielding source file
missing (batting and bowling present), the subsequent
`topPerformers('fielding', 5)` call raises `AttributeError`
(`self.fielding_df` was never assigned) instead of returning an empty
result, so "returns an empty result rather than raising; no error
crashes the process" fails. -/
theorem C3_counterexample :
    top_performers
      (load_data ⟨some [rowA], some [rowW], none, some [teamRow1]⟩).1
      "fielding" 5 = Except.error PyError.attributeError := rfl

/-- **C3, amended.**  If the fielding source file is missing, `load()`
reports the error (an error diagnostic is printed), the fielding table is
left unset (as is every table read after it), and a subsequent
`topPerformers('fielding', 5)` raises `AttributeError` — it does not
return an empty result. -/
theorem C3_load_failure :
    ∀ (bt : List BattingRow) (bw : List BowlingRow)
      (tc : Option (List TeamRow)),
    (load_data ⟨some bt, some bw, none, tc⟩).1.fielding_df = none ∧
    (load_data ⟨some bt, some bw, none, tc⟩).1.team_df = none ∧
    ((load_data ⟨some bt, some bw, none, tc⟩).2.filter
      (fun e => e.isErr)) ≠ [] ∧
    top_performers (load_data ⟨some bt, some bw, none, tc⟩).1 "fielding" 5 =
      Except.error PyError.attributeError := by
  intro bt bw tc
  exact ⟨rfl, rfl, List.cons_ne_nil _ _, rfl⟩

theorem pyLower_batting : pyLower "batting" = "batting" := rfl

theorem pyLower_bowling : pyLower "bowling" = "bowling" := rfl

theorem pyLower_fielding : pyLower "fielding" = "fielding" := rfl

/-- **C7, counterexample.**  `topPerformers('teams', 5)` on a loaded
state prints only the header lines and displays no table, and its output
contains no error diagnostic, so "signals InvalidCategory with a
diagnostic" fails (the `if`/`elif` chain simply has no `else`). -/
theorem C7_counterexample :
    top_performers scenState "teams" 5 =
      Except.ok [.text (tpHeader "teams" 5), .text dash50] ∧
    ([PrintEvent.text (tpHeader "teams" 5),
      PrintEvent.text dash50].filter (fun e => e.isErr)) = [] :=
  ⟨rfl, rfl⟩

/-- **C7, amended.**  For every category string not matching `batting`,
`bowling` or `fielding` case-insensitively, `topPerformers` is a no-op:
it returns normally (never fatal, on any state) having printed only the
header lines, displays no rows — and emits **no** diagnostic. -/
theorem C7_invalid_category :
    ∀ (st : AnalyzerState) (c : String) (n : Nat),
      pyLower c ≠ "batting" → pyLower c ≠ "bowling" → pyLower c ≠ "fielding" →
      top_performers st c n =
        Except.ok [.text (tpHeader c n), .text dash50] := by
  intro st c n h1 h2 h3
  rw [top_performers, if_neg h1, if_neg h2, if_neg h3]

/-- Witness for C7: the invalid category `teams` on an empty state. -/
theorem C7_witness :
    top_performers ⟨none, none, none, none⟩ "teams" 3 =
      Except.ok [.text (tpHeader "teams" 3), .text dash50] :=
  C7_invalid_category ⟨none, none, none, none⟩ "teams" 3
    (by decide) (by decide) (by decide)

/-- **C4.**  For every pair of names and category in
{`batting`, `bowling`}, if either name has no row whose `Player` field
exactly equals it in the selected table, `comparePlayers` prints the
player-not-found diagnostic and aborts: its only output is that
diagnostic, so no report or chart is produced. -/
theorem C4_player_not_found :
    ∀ (bt : List BattingRow) (bw : List BowlingRow) (fd : List FieldingRow)
      (tm : List TeamRow) (n1 n2 c : String),
    (c = "batting" ∧ (bt.find? (fun r => r.player == n1) = none ∨
        bt.find? (fun r => r.player == n2) = none)) ∨
    (c = "bowling" ∧ (bw.find? (fun r => r.player == n1) = none ∨
        bw.find? (fun r => r.player == n2) = none)) →
    compare_players (mkState bt bw fd tm) n1 n2 c =
      Except.ok [.errorMsg notFoundMsg] := by
  intro bt bw fd tm n1 n2 c h
  rcases h with ⟨rfl, h⟩ | ⟨rfl, h⟩
  · rcases h with h1 | h2
    · simp [compare_players, mkState, pyLower_batting, h1]
    · cases hf1 : bt.find? (fun r => r.player == n1) with
      | none => simp [compare_players, mkState, pyLower_batting, hf1]
      | some p1 => simp [compare_players, mkState, pyLower_batting, hf1, h2]
  · rcases h with h1 | h2
    · simp [compare_players, mkState, pyLower_bowling, h1]
    · cases hf1 : bw.find? (fun r => r.player == n1) with
      | none => simp [compare_players, mkState, pyLower_bowling, hf1]
      | some p1 => simp [compare_players, mkState, pyLower_bowling, hf1, h2]

/-- Witness for C4: `comparePlayers('Z', 'A', 'batting')` where `Z` is
absent from the batting table. -/
theorem C4_witness :
    compare_players (mkState [rowA] [] [] []) "Z" "A" "batting" =
      Except.ok [.errorMsg notFoundMsg] :=
  C4_player_not_found [rowA] [] [] [] "Z" "A" "batting"
    (Or.inl ⟨rfl, Or.inl rfl⟩)

/-- **C10.**  Category matching is case-insensitive: for every state,
every category string `c` and all arguments, `topPerformers` and
`comparePlayers` behave identically on `c` and on `lowercase(c)` (the
source tests `category.lower()` and otherwise uses `category` only
through `upper` / `capitalize`, which are insensitive to prior
lowering). -/
theorem C10_case_insensitive :
    (∀ (st : AnalyzerState) (c : String) (n : Nat),
      top_performers st c n = top_performers st (pyLower c) n) ∧
    (∀ (st : AnalyzerState) (n1 n2 c : String),
      compare_players st n1 n2 c = compare_players st n1 n2 (pyLower c)) := by
  constructor
  · intro st c n
    simp only [top_performers, tpHeader, pyLower_idem, pyUpper_pyLower]
  · intro st n1 n2 c
    simp only [compare_players, cmpTitle, pyLower_idem, pyCapitalize_pyLower]

/-- Reduction lemma: a `comparePlayers` call in the batting branch, with
both lookups known. -/
theorem compare_players_batting_eq (st : AnalyzerState) (n1 n2 c : String)
    (hc : pyLower c = "batting") (df : List BattingRow)
    (hdf : st.batting_df = some df) {o1 o2 : Option BattingRow}
    (h1 : df.find? (fun r => r.player == n1) = o1)
    (h2 : df.find? (fun r => r.player == n2) = o2) :
    compare_players st n1 n2 c =
      match o1, o2 with
      | some p1, some p2 =>
        Except.ok [.chart
          { title := cmpTitle c n1 n2,
            metrics := ["Runs", "Average", "Strike_Rate", "Fours", "Sixes"],
            name1 := n1, team1 := p1.team, values1 := battingVals p1,
            name2 := n2, team2 := p2.team, values2 := battingVals p2 }]
      | _, _ => Except.ok [.errorMsg notFoundMsg] := by
  subst h1 h2
  rw [compare_players, if_pos hc, hdf]

/-- Reduction lemma: the bowling branch, with both lookups known. -/
theorem compare_players_bowling_eq (st : AnalyzerState) (n1 n2 c : String)
    (hc1 : pyLower c ≠ "batting") (hc : pyLower c = "bowling")
    (df : List BowlingRow) (hdf : st.bowling_df = some df)
    {o1 o2 : Option BowlingRow}
    (h1 : df.find? (fun r => r.player == n1) = o1)
    (h2 : df.find? (fun r => r.player == n2) = o2) :
    compare_players st n1 n2 c =
      match o1, o2 with
      | some p1, some p2 =>
        Except.ok [.chart
          { title := cmpTitle c n1 n2,
            metrics := ["Wickets", "Economy", "Average", "Strike_Rate"],
            name1 := n1, team1 := p1.team, values1 := bowlingVals p1,
            name2 := n2, team2 := p2.team, values2 := bowlingVals p2 }]
      | _, _ => Except.ok [.errorMsg notFoundMsg] := by
  subst h1 h2
  rw [compare_players, if_neg hc1, if_pos hc, hdf]

theorem chart_list_ok_inj {c1 c2 : Comparison}
    (h : (Except.ok [PrintEvent.chart c1] : Except PyError (List PrintEvent)) =
      Except.ok [PrintEvent.chart c2]) : c1 = c2 := by
  simp only [Except.ok.injEq, List.cons.injEq, and_true,
    PrintEvent.chart.injEq] at h
  exact h

/-- **C9.**  For every pair of names both present in the selected table,
swapping the two names swaps the two sides of the comparison, with
identical metric values for each player (and the title names swapped);
and each player's side comes from the first row whose `Player` field
exactly equals their name. -/
theorem C9_compare_symmetric :
    (∀ (st : AnalyzerState) (n1 n2 c : String) (d : Comparison),
      compare_players st n1 n2 c = Except.ok [.chart d] →
      compare_players st n2 n1 c = Except.ok [.chart
        ⟨cmpTitle c n2 n1, d.metrics, d.name2, d.team2, d.values2,
          d.name1, d.team1, d.values1⟩]) ∧
    (∀ (bt : List BattingRow) (bw : List BowlingRow) (fd : List FieldingRow)
        (tm : List TeamRow) (n1 n2 : String) (d : Comparison),
      compare_players (mkState bt bw fd tm) n1 n2 "batting" =
        Except.ok [.chart d] →
      ∃ r1 r2, bt.find? (fun r => r.player == n1) = some r1 ∧
        bt.find? (fun r => r.player == n2) = some r2 ∧
        d.name1 = n1 ∧ d.team1 = r1.team ∧ d.values1 = battingVals r1 ∧
        d.name2 = n2 ∧ d.team2 = r2.team ∧ d.values2 = battingVals r2) ∧
    (∀ (bt : List BattingRow) (bw : List BowlingRow) (fd : List FieldingRow)
        (tm : List TeamRow) (n1 n2 : String) (d : Comparison),
      compare_players (mkState bt bw fd tm) n1 n2 "bowling" =
        Except.ok [.chart d] →
      ∃ r1 r2, bw.find? (fun r => r.player == n1) = some r1 ∧
        bw.find? (fun r => r.player == n2) = some r2 ∧
        d.name1 = n1 ∧ d.team1 = r1.team ∧ d.values1 = bowlingVals r1 ∧
        d.name2 = n2 ∧ d.team2 = r2.team ∧ d.values2 = bowlingVals r2) := by
  refine ⟨?_, ?_, ?_⟩
  · intro st n1 n2 c d h
    by_cases hc : pyLower c = "batting"
    · cases hdf : st.batting_df with
      | none => rw [compare_players, if_pos hc, hdf] at h; exact Except.noConfusion h
      | some df =>
        cases hf1 : df.find? (fun r => r.player == n1) with
        | none =>
          rw [compare_players_batting_eq st n1 n2 c hc df hdf hf1 rfl] at h
          exact PrintEvent.noConfusion (List.head_eq_of_cons_eq (Except.ok.inj h))
        | some p1 =>
          cases hf2 : df.find? (fun r => r.player == n2) with
          | none =>
            rw [compare_players_batting_eq st n1 n2 c hc df hdf hf1 hf2] at h
            exact PrintEvent.noConfusion (List.head_eq_of_cons_eq (Except.ok.inj h))
          | some p2 =>
            rw [compare_players_batting_eq st n1 n2 c hc df hdf hf1 hf2] at h
            rw [compare_players_batting_eq st n2 n1 c hc df hdf hf2 hf1]
            obtain rfl := chart_list_ok_inj h
            rfl
    · by_cases hc2 : pyLower c = "bowling"
      · cases hdf : st.bowling_df with
        | none =>
          rw [compare_players, if_neg hc, if_pos hc2, hdf] at h
          exact Except.noConfusion h
        | some df =>
          cases hf1 : df.find? (fun r => r.player == n1) with
          | none =>
            rw [compare_players_bowling_eq st n1 n2 c hc hc2 df hdf hf1 rfl] at h
            exact PrintEvent.noConfusion (List.head_eq_of_cons_eq (Except.ok.inj h))
          | some p1 =>
            cases hf2 : df.find? (fun r => r.player == n2) with
            | none =>
              rw [compare_players_bowling_eq st n1 n2 c hc hc2 df hdf hf1 hf2] at h
              exact PrintEvent.noConfusion (List.head_eq_of_cons_eq (Except.ok.inj h))
            | some p2 =>
              rw [compare_players_bowling_eq st n1 n2 c hc hc2 df hdf hf1 hf2] at h
              rw [compare_players_bowling_eq st n2 n1 c hc hc2 df hdf hf2 hf1]
              obtain rfl := chart_list_ok_inj h
              rfl
      · rw [compare_players, if_neg hc, if_neg hc2] at h
        exact PrintEvent.noConfusion (List.head_eq_of_cons_eq (Except.ok.inj h))
  · intro bt bw fd tm n1 n2 d h
    cases hf1 : bt.find? (fun r => r.player == n1) with
    | none =>
      rw [compare_players_batting_eq (mkState bt bw fd tm) n1 n2 "batting"
        pyLower_batting bt rfl hf1 rfl] at h
      exact PrintEvent.noConfusion (List.head_eq_of_cons_eq (Except.ok.inj h))
    | some p1 =>
      cases hf2 : bt.find? (fun r => r.player == n2) with
      | none =>
        rw [compare_players_batting_eq (mkState bt bw fd tm) n1 n2 "batting"
          pyLower_batting bt rfl hf1 hf2] at h
        exact PrintEvent.noConfusion (List.head_eq_of_cons_eq (Except.ok.inj h))
      | some p2 =>
        rw [compare_players_batting_eq (mkState bt bw fd tm) n1 n2 "batting"
          pyLower_batting bt rfl hf1 hf2] at h
        obtain rfl := chart_list_ok_inj h
        exact ⟨p1, p2, rfl, rfl, rfl, rfl, rfl, rfl, rfl, rfl⟩
  · intro bt bw fd tm n1 n2 d h
    cases hf1 : bw.find? (fun r => r.player == n1) with
    | none =>
      rw [compare_players_bowling_eq (mkState bt bw fd tm) n1 n2 "bowling"
        (by decide) pyLower_bowling bw rfl hf1 rfl] at h
      exact PrintEvent.noConfusion (List.head_eq_of_cons_eq (Except.ok.inj h))
    | some p1 =>
      cases hf2 : bw.find? (fun r => r.player == n2) with
      | none =>
        rw [compare_players_bowling_eq (mkState bt bw fd tm) n1 n2 "bowling"
          (by decide) pyLower_bowling bw rfl hf1 hf2] at h
        exact PrintEvent.noConfusion (List.head_eq_of_cons_eq (Except.ok.inj h))
      | some p2 =>
        rw [compare_players_bowling_eq (mkState bt bw fd tm) n1 n2 "bowling"
          (by decide) pyLower_bowling bw rfl hf1 hf2] at h
        obtain rfl := chart_list_ok_inj h
        exact ⟨p1, p2, rfl, rfl, rfl, rfl, rfl, rfl, rfl, rfl⟩

/-- Witness for C9: swapping `A` and `B` on the scenario batting table. -/
theorem C9_witness :
    compare_players (mkState [rowA, rowB] [] [] []) "B" "A" "batting" =
      Except.ok [.chart
        ⟨cmpTitle "batting" "B" "A",
          ["Runs", "Average", "Strike_Rate", "Fours", "Sixes"],
          "B", "TeamY", battingVals rowB,
          "A", "TeamX", battingVals rowA⟩] :=
  C9_compare_symmetric.1 (mkState [rowA, rowB] [] [] []) "A" "B" "batting"
    ⟨cmpTitle "batting" "A" "B",
      ["Runs", "Average", "Strike_Rate", "Fours", "Sixes"],
      "A", "TeamX", battingVals rowA,
      "B", "TeamY", battingVals rowB⟩ rfl

/-- **C8.**  For a fixed loaded state, two runs of `generateReport`
(differing only in the generation timestamp) produce identical chunk
lists except for the timestamp chunk at index 2, whose content is exactly
the `Generated on:` line. -/
theorem C8_report_deterministic :
    ∀ (st : AnalyzerState) (ts1 ts2 : String),
      Except.map (fun c => List.eraseIdx c 2) (generate_report st ts1) =
        Except.map (fun c => List.eraseIdx c 2) (generate_report st ts2) ∧
      Except.map (fun c => List.get? c 2) (generate_report st ts1) =
        Except.map (fun _ => some ("Generated on: " ++ ts1 ++ "\n\n"))
          (generate_report st ts1) := by
  intro st ts1 ts2
  simp only [generate_report]
  cases ha : awardsOf st with
  | error e => exact ⟨rfl, rfl⟩
  | ok a =>
    cases htm : st.team_df with
    | none => exact ⟨rfl, rfl⟩
    | some tm => exact ⟨rfl, rfl⟩

/-- Concrete evaluation of the `{x:+.3f}` embedding at `0`. -/
theorem fmtRatSigned3_zero : fmtRatSigned3 0 = "+0.000" := by
  have hr : roundHalfEven (|(0 : ℚ)| * 10 ^ 3) = 0 := by
    have h1 : |(0 : ℚ)| * 10 ^ 3 = 0 := by norm_num
    rw [h1, roundHalfEven]
    norm_num
  rw [fmtRatSigned3, fmtFixed, hr, if_neg (by norm_num : ¬(0 : ℚ) < 0)]
  rfl

theorem teamLine_teamRow2 :
    teamLine teamRow2 = " 2. AAA  -  0 pts | W:  0 L:  0 | NRR: +0.000\n" := by
  rw [teamLine, show teamRow2.nrr = 0 from rfl, fmtRatSigned3_zero]
  rfl

theorem teamLine_teamRow1 :
    teamLine teamRow1 = " 1. BBB  -  0 pts | W:  0 L:  0 | NRR: +0.000\n" := by
  rw [teamLine, show teamRow1.nrr = 0 from rfl, fmtRatSigned3_zero]
  rfl

/-- **C6, counterexample.**  On a team table stored as
`[Position 2 (team AAA), Position 1 (team BBB)]`, the points-table block
of the report (chunks 16 and 17) lists Position 2 before Position 1 —
stored order, not Position-ascending order — so "ordered by Position
ascending ... for every loaded team table" fails.  The rendered lines
also show the team name padded on the right (`'AAA '`), not on the
left. -/
theorem C6_counterexample :
    Except.map (fun c => List.take 2 (List.drop 16 c))
      (generate_report (mkState [rowA] [rowW] [rowG] [teamRow2, teamRow1]) "T") =
      Except.ok [teamLine teamRow2, teamLine teamRow1] ∧
    teamLine teamRow2 = " 2. AAA  -  0 pts | W:  0 L:  0 | NRR: +0.000\n" ∧
    teamLine teamRow1 = " 1. BBB  -  0 pts | W:  0 L:  0 | NRR: +0.000\n" ∧
    (sortAscPos [teamRow2, teamRow1]).map teamLine =
      [teamLine teamRow1, teamLine teamRow2] ∧
    [teamLine teamRow2, teamLine teamRow1] ≠
      [teamLine teamRow1, teamLine teamRow2] := by
  refine ⟨rfl, teamLine_teamRow2, teamLine_teamRow1, rfl, ?_⟩
  rw [teamLine_teamRow1, teamLine_teamRow2]
  decide

/-- **C6, amended.**  `generateReport` renders the full TeamRecord table
**in stored row order** (Position-ascending only when the rows are stored
sorted) as a contiguous block of fixed-width lines: Position / Points /
Won / Lost right-aligned to a minimum width of 2 (two digits wide for
values below 100), Team left-aligned and padded **on the right** to
width 4, and NRR with an explicit sign and exactly 3 decimals. -/
theorem C6_report_points_table :
    ∀ (b : BattingRow) (bt : List BattingRow) (w : BowlingRow)
      (bw : List BowlingRow) (g : FieldingRow) (fd : List FieldingRow)
      (tm : List TeamRow) (ts : String),
    ∃ pre post,
      generate_report (mkState (b :: bt) (w :: bw) (g :: fd) tm) ts =
        Except.ok (pre ++ tm.map teamLine ++ post) ∧
      (∀ r : TeamRow, teamLine r =
        fmtNatW 2 r.position ++ ". " ++ padRightStr 4 r.team ++ " - " ++
          fmtNatW 2 r.points ++ " pts | W: " ++ fmtNatW 2 r.won ++ " L: " ++
          fmtNatW 2 r.lost ++ " | NRR: " ++ fmtRatSigned3 r.nrr ++ "\n") ∧
      (∀ k : Fin 100, (fmtNatW 2 k.val).length = 2) ∧
      (∀ s : String, (padRightStr 4 s).length = max s.length 4 ∧
        ∃ pad, padRightStr 4 s = s ++ pad) ∧
      (∀ x : ℚ, ∃ ip fr, fmtRatSigned3 x =
        (if x < 0 then "-" else "+") ++ (ip ++ "." ++ fr) ∧ fr.length = 3) := by
  intro b bt w bw g fd tm ts
  refine ⟨_, _, rfl, fun r => rfl, by decide, fun s => padRightStr_spec 4 s,
    fmtRatSigned3_shape⟩

/-- Witness for C3: the amended claim at a one-row file system. -/
theorem C3_witness :
    (load_data ⟨some [rowA], some [rowW], none, some [teamRow1]⟩).1.fielding_df =
      none ∧
    (load_data ⟨some [rowA], some [rowW], none, some [teamRow1]⟩).1.team_df =
      none ∧
    ((load_data ⟨some [rowA], some [rowW], none, some [teamRow1]⟩).2.filter
      (fun e => e.isErr)) ≠ [] ∧
    top_performers
      (load_data ⟨some [rowA], some [rowW], none, some [teamRow1]⟩).1
      "fielding" 5 = Except.error PyError.attributeError :=
  C3_load_failure [rowA] [rowW] (some [teamRow1])

/-- Witness for C5: the amended claim at a two-row unsorted team table. -/
theorem C5_witness :
    ∃ s, display_summary (mkState [rowA] [rowW] [rowG] [teamRow2, teamRow1]) =
      Except.ok s ∧ s.top4 = ([teamRow2, teamRow1] : List TeamRow).take 4 :=
  C5_summary_top4 rowA [] rowW [] rowG [] [teamRow2, teamRow1]

/-- Witness for C6: the amended claim at a concrete state and timestamp. -/
theorem C6_witness :
    ∃ pre post,
      generate_report (mkState [rowA] [rowW] [rowG] [teamRow1]) "T" =
        Except.ok (pre ++ ([teamRow1] : List TeamRow).map teamLine ++ post) ∧
      (∀ r : TeamRow, teamLine r =
        fmtNatW 2 r.position ++ ". " ++ padRightStr 4 r.team ++ " - " ++
          fmtNatW 2 r.points ++ " pts | W: " ++ fmtNatW 2 r.won ++ " L: " ++
          fmtNatW 2 r.lost ++ " | NRR: " ++ fmtRatSigned3 r.nrr ++ "\n") ∧
      (∀ k : Fin 100, (fmtNatW 2 k.val).length = 2) ∧
      (∀ s : String, (padRightStr 4 s).length = max s.length 4 ∧
        ∃ pad, padRightStr 4 s = s ++ pad) ∧
      (∀ x : ℚ, ∃ ip fr, fmtRatSigned3 x =
        (if x < 0 then "-" else "+") ++ (ip ++ "." ++ fr) ∧ fr.length = 3) :=
  C6_report_points_table rowA [] rowW [] rowG [] [teamRow1] "T"

/-- Witness for C8: two concrete runs with different timestamps. -/
theorem C8_witness :
    Except.map (fun c => List.eraseIdx c 2)
        (generate_report (mkState [rowA] [rowW] [rowG] [teamRow1]) "A") =
      Except.map (fun c => List.eraseIdx c 2)
        (generate_report (mkState [rowA] [rowW] [rowG] [teamRow1]) "B") ∧
    Except.map (fun c => List.get? c 2)
        (generate_report (mkState [rowA] [rowW] [rowG] [teamRow1]) "A") =
      Except.map (fun _ => some ("Generated on: " ++ "A" ++ "\n\n"))
        (generate_report (mkState [rowA] [rowW] [rowG] [teamRow1]) "A") :=
  C8_report_deterministic (mkState [rowA] [rowW] [rowG] [teamRow1]) "A" "B"

/-- Witness for C10: the uppercase category `BATTING`. -/
theorem C10_witness :
    top_performers scenState "BATTING" 3 =
      top_performers scenState (pyLower "BATTING") 3 :=
  C10_case_insensitive.1 scenState "BATTING" 3

end IPL
